import Mathlib

/-!
Shallow embedding of the voice transport client in src/src/voice.rs
(discord-rs voice module): the session controller (VoiceConnection),
the handshake phase of voice_thread, the real-time transport loop,
and the helpers next_frame and set_speaking.

External effects (websocket sends/receives, UDP operations, the Opus
encoder, thread spawning) are modelled by explicit environment records
whose boolean fields say whether each external operation succeeds, and
by explicit traces of emitted actions.  Machine integers are Nat with
explicit reduction modulo 2^16 / 2^32 where the source wraps.
-/

namespace DiscordVoice

/-! ### Byte-order helpers (byteorder crate usage in voice.rs) -/

/-- Big-endian bytes of a u16 value (write_u16 with BigEndian). -/
def be16 (n : Nat) : List Nat := [n / 256 % 256, n % 256]

/-- Big-endian bytes of a u32 value (write_u32 with BigEndian). -/
def be32 (n : Nat) : List Nat :=
  [n / 16777216 % 256, n / 65536 % 256, n / 256 % 256, n % 256]

/-- The 12-byte RTP-style packet header built at voice.rs lines 364-369:
fixed bytes 0x80 0x78, then big-endian u16 sequence, big-endian u32
timestamp, big-endian u32 ssrc. -/
def buildHeader (sequence timestamp ssrc : Nat) : List Nat :=
  [0x80, 0x78] ++ be16 sequence ++ be32 timestamp ++ be32 ssrc

/-- Parse a 12-byte RTP-style header back into (sequence, timestamp, ssrc);
inverse reading of the big-endian fields written by buildHeader. -/
def parseHeader (b : List Nat) : Option (Nat × Nat × Nat) :=
  match b with
  | [0x80, 0x78, s0, s1, t0, t1, t2, t3, r0, r1, r2, r3] =>
    some (s0 * 256 + s1,
      ((t0 * 256 + t1) * 256 + t2) * 256 + t3,
      ((r0 * 256 + r1) * 256 + r2) * 256 + r3)
  | _ => none

/-! ### Audio sources and next_frame (voice.rs lines 389-398)

An AudioSource is an opaque byte reader.  We model it as the list of
bytes it will yield, followed by how the stream ends: a clean
end-of-file, or an underlying I/O error. -/

/-- What happens once the listed bytes of a source are exhausted. -/
inductive EndKind where
  | eof
  | ioErr
deriving DecidableEq

/-- Model of an AudioSource: the bytes it yields, then its end behaviour. -/
structure ByteSource where
  bytes : List Nat
  ending : EndKind
deriving DecidableEq

/-- Result of byteorder read_i16::<LittleEndian> on a source: a value and
the remaining source, an UnexpectedEOF (fewer than 2 bytes were available
and the stream ended cleanly), or an underlying Io error. -/
inductive ReadI16Res where
  | ok (v : Int) (rest : ByteSource)
  | eofHit
  | ioFail
deriving DecidableEq

/-- Interpret a 16-bit little-endian unsigned value as signed. -/
def toI16 (n : Nat) : Int :=
  if n % 65536 < 32768 then (n % 65536 : Int) else (n % 65536 : Int) - 65536

/-- byteorder read_i16::<LittleEndian>: consume two bytes (low byte first);
with fewer than two bytes left, the read fails with UnexpectedEOF when the
stream ends cleanly (any dangling byte is consumed and lost) and with an
Io error when the underlying reader errors. -/
def read_i16_le (s : ByteSource) : ReadI16Res :=
  match s.bytes with
  | b0 :: b1 :: rest => .ok (toI16 (b0 + 256 * b1)) ⟨rest, s.ending⟩
  | _ =>
    match s.ending with
    | .eof => .eofHit
    | .ioErr => .ioFail

/-- Recursive worker for next_frame: fill the remaining buffer slots one
i16 sample at a time; on UnexpectedEOF return Ok with the index reached
(voice.rs line 393), on an Io error return Err (line 394). -/
def nextFrameAux : ByteSource → Nat → Nat → Except Unit (Nat × ByteSource)
  | src, 0, count => .ok (count, src)
  | src, r + 1, count =>
    match read_i16_le src with
    | .ok _ rest => nextFrameAux rest r (count + 1)
    | .eofHit => .ok (count, ⟨[], src.ending⟩)
    | .ioFail => .error ()

/-- next_frame (voice.rs lines 389-398): read up to buflen little-endian
i16 samples from the source; returns the number of samples read (and the
consumed source).  A clean end-of-stream yields Ok with the count so far;
an underlying I/O error yields Err. -/
def next_frame (src : ByteSource) (buflen : Nat) : Except Unit (Nat × ByteSource) :=
  nextFrameAux src buflen 0

/-! ### Commands (enum Status, voice.rs lines 209-213) -/

/-- Controller-to-loop command: Source carries an audio source, Stop clears
it, Poke is the liveness probe. -/
inductive Status where
  | source (s : ByteSource)
  | stop
  | poke
deriving DecidableEq

/-- The non-blocking drain of the command queue at the top of each loop
iteration (voice.rs lines 326-334), restricted to its effect on the
current audio source: Source replaces it, Stop clears it, Poke is a no-op. -/
def drainAudio (cmds : List Status) (audio : Option ByteSource) : Option ByteSource :=
  match cmds with
  | [] => audio
  | .source s :: rest => drainAudio rest (some s)
  | .stop :: rest => drainAudio rest none
  | .poke :: rest => drainAudio rest audio

/-! ### Transport loop state and per-iteration inputs -/

/-- Mutable state owned by the transport loop (voice.rs lines 306-319):
the u16 sequence counter, the u32 timestamp counter, the last announced
speaking flag, the optional audio source, and the 24-byte nonce buffer. -/
structure LoopState where
  sequence : Nat
  timestamp : Nat
  speaking : Bool
  audio : Option ByteSource
  nonce : List Nat
deriving DecidableEq

/-- External inputs of one iteration of the main loop: the commands
drained this iteration, whether the drain ended on a disconnected queue,
whether each timer fired, whether each fallible external send succeeds,
and the Opus encoder outcome (none models an encoder error, some n an
encoded payload of n bytes). -/
structure Tick where
  cmds : List Status
  disconnected : Bool
  kaFires : Bool
  kaSendOk : Bool
  audioFires : Bool
  speakSendOk : Bool
  encodeRes : Option Nat
  udpSendOk : Bool
deriving DecidableEq

/-- Observable events of a loop iteration, in order: a keepalive message
(op 3), a call to set_speaking with the requested flag, an actually sent
speaking message (op 5), and a media packet sent over UDP (recording the
sequence and timestamp values used, the 12-byte header, and the nonce the
payload was sealed with). -/
inductive Emit where
  | keepalive
  | speakCall (b : Bool)
  | speakingMsg (b : Bool)
  | packet (seq ts : Nat) (header nonce : List Nat)
deriving DecidableEq

/-- How a run of the loop ends: the supplied tick list ran out with the
loop still live, the command queue disconnected (graceful Ok return,
lines 332 and 383-386), the loop returned an error through a try! site,
or the loop panicked through an expect. -/
inductive RunEnd where
  | ranOut (st : LoopState)
  | graceful
  | errAbort
  | panicAbort
deriving DecidableEq

/-- Outcome of one loop iteration: continue with a new state, or halt. -/
inductive StepOut where
  | cont (emits : List Emit) (st : LoopState)
  | halt (emits : List Emit) (e : RunEnd)
deriving DecidableEq

/-- set_speaking (voice.rs lines 400-412): if the stored flag already
equals the requested one, do nothing; otherwise update the stored flag
and send an op 5 message.  Returns (trace, new stored flag, send ok).
The trace records the call itself (speakCall) and, when a message was
actually sent, the message (speakingMsg); a failed websocket send sends
nothing and reports failure. -/
def set_speaking (store b sendOk : Bool) : List Emit × Bool × Bool :=
  if store = b then ([.speakCall b], store, true)
  else if sendOk then ([.speakCall b, .speakingMsg b], b, true)
  else ([.speakCall b], b, false)

/-- The read at voice.rs lines 347-350: next_frame on the current source
with the 960-slot buffer, or length 0 when no source is installed. -/
def readFrame : Option ByteSource → Except Unit (Nat × Option ByteSource)
  | some src =>
    match next_frame src 960 with
    | .ok (len, rest) => .ok (len, some rest)
    | .error e => .error e
  | none => .ok (0, none)

/-- One frame cycle (voice.rs lines 345-380), run when the audio timer
fired: read a frame; on length 0 announce speaking false and continue;
otherwise announce speaking true, build the header, copy it into the
first 12 nonce bytes, Opus-encode (an encoder error panics through
expect, line 374), seal and send the packet, and advance the sequence by
1 mod 2^16 and the timestamp by 960 mod 2^32. -/
def frameCycle (ssrc : Nat) (st : LoopState) (t : Tick) : StepOut :=
  match readFrame st.audio with
  | .error _ => .halt [] .errAbort
  | .ok (len, audio2) =>
    let st2 : LoopState := { st with audio := audio2 }
    if len = 0 then
      match set_speaking st2.speaking false t.speakSendOk with
      | (es, store, true) => .cont es { st2 with speaking := store }
      | (es, _, false) => .halt es .errAbort
    else
      match set_speaking st2.speaking true t.speakSendOk with
      | (es1, store, ok) =>
        let st3 : LoopState := { st2 with speaking := store }
        if !ok then .halt es1 .errAbort
        else
          let header := buildHeader st3.sequence st3.timestamp ssrc
          let nonce2 := header ++ st3.nonce.drop 12
          let st4 : LoopState := { st3 with nonce := nonce2 }
          match t.encodeRes with
          | none => .halt es1 .panicAbort
          | some _ =>
            if t.udpSendOk then
              .cont (es1 ++ [.packet st4.sequence st4.timestamp header nonce2])
                { st4 with
                  sequence := (st4.sequence + 1) % 65536,
                  timestamp := (st4.timestamp + 960) % 4294967296 }
            else .halt es1 .errAbort

/-- One iteration of the main loop (voice.rs lines 323-381): drain the
command queue (exiting gracefully on disconnection), send a keepalive if
that timer fired (a failed send aborts with an error), and run the frame
cycle if the audio timer fired. -/
def stepTick (ssrc : Nat) (st : LoopState) (t : Tick) : StepOut :=
  let st1 : LoopState := { st with audio := drainAudio t.cmds st.audio }
  if t.disconnected then .halt [] .graceful
  else if t.kaFires && !t.kaSendOk then .halt [] .errAbort
  else
    let ka : List Emit := if t.kaFires then [.keepalive] else []
    if !t.audioFires then .cont ka st1
    else
      match frameCycle ssrc st1 t with
      | .cont es st2 => .cont (ka ++ es) st2
      | .halt es e => .halt (ka ++ es) e

/-- Run the main loop over a list of iteration inputs, collecting the
emitted events in order and how (or whether) the loop ended. -/
def runLoop (ssrc : Nat) : LoopState → List Tick → List Emit × RunEnd
  | st, [] => ([], .ranOut st)
  | st, t :: ts =>
    match stepTick ssrc st t with
    | .cont es st2 =>
      let r := runLoop ssrc st2 ts
      (es ++ r.1, r.2)
    | .halt es e => (es, e)

/-- The loop state right after the handshake (voice.rs lines 306-319):
sequence 0, timestamp 0, not speaking, no source, all-zero 24-byte nonce. -/
def initState : LoopState :=
  ⟨0, 0, false, none, List.replicate 24 0⟩

/-! ### Trace projections -/

/-- Sequence values of the media packets in a trace, in order. -/
def seqsOf (es : List Emit) : List Nat :=
  es.filterMap fun e =>
    match e with
    | .packet s _ _ _ => some s
    | _ => none

/-- Timestamp values of the media packets in a trace, in order. -/
def tssOf (es : List Emit) : List Nat :=
  es.filterMap fun e =>
    match e with
    | .packet _ t _ _ => some t
    | _ => none

/-- (header, nonce) pairs of the media packets in a trace, in order. -/
def noncesOf (es : List Emit) : List (List Nat × List Nat) :=
  es.filterMap fun e =>
    match e with
    | .packet _ _ h n => some (h, n)
    | _ => none

/-- Flags of the speaking messages actually sent, in order. -/
def speakMsgsOf (es : List Emit) : List Bool :=
  es.filterMap fun e =>
    match e with
    | .speakingMsg b => some b
    | _ => none

/-- Flags passed to set_speaking calls, in order: the per-frame-cycle
announced state (true when audio was read, false on silence). -/
def speakCallsOf (es : List Emit) : List Bool :=
  es.filterMap fun e =>
    match e with
    | .speakCall b => some b
    | _ => none

/-- The value change points of a boolean sequence starting from init:
keeps exactly the elements that differ from the running current value. -/
def changes (init : Bool) : List Bool → List Bool
  | [] => []
  | b :: rest => if b = init then changes init rest else b :: changes b rest

/-- The running final value of a boolean sequence starting from init. -/
def lastVal (init : Bool) : List Bool → Bool
  | [] => init
  | b :: rest => lastVal b rest

/-- Arithmetic progression of n terms modulo modulus: start % m,
(start + step) % m, (start + 2 * step) % m, and so on. -/
def apList (start step modulus : Nat) : Nat → List Nat
  | 0 => []
  | n + 1 => (start % modulus) :: apList (start + step) step modulus n

/-! ### Concrete fixtures used to exercise the model -/

/-- A tiny audio source: one complete sample, then EOF. -/
def wSrc : ByteSource := ⟨[9, 9], .eof⟩

/-- One loop iteration that installs wSrc and transmits one packet. -/
def wTickPlay : Tick := ⟨[.source wSrc], false, false, true, true, true, some 4, true⟩

/-- One loop iteration whose frame read yields silence. -/
def wTickSilent : Tick := ⟨[], false, false, true, true, true, some 4, true⟩

/-- One loop iteration with audio present but a failing Opus encoder. -/
def wTickEncErr : Tick := ⟨[.source wSrc], false, false, true, true, true, none, true⟩

/-- A loop state holding wSrc, as left right after the handshake. -/
def wStPlay : LoopState := ⟨0, 0, false, some wSrc, List.replicate 24 0⟩

/-! ### Errors (super::Error variants used by voice.rs) -/

/-- The error variants of the crate Error type reachable from voice.rs:
Protocol and Other carry their static message; io, ws and decode stand
for the From-converted io::Error, websocket error and serde_json error. -/
inductive VError where
  | protocol (msg : String)
  | other (msg : String)
  | io
  | ws
  | decode
deriving DecidableEq

/-! ### Control-channel events and recv_message (voice.rs lines 215-228) -/

/-- Decoded voice control events (super::model::VoiceEvent as used here). -/
inductive VoiceEvent where
  | handshake (heartbeat_interval port ssrc : Nat) (modes : List String)
  | ready (mode : String) (secret_key : List Nat)
  | unknown (op : Nat)
deriving DecidableEq

/-- Whether an event is the Handshake variant. -/
def VoiceEvent.isHandshake : VoiceEvent → Bool
  | .handshake _ _ _ _ => true
  | _ => false

/-- Outcome of one websocket receive, before recv_message interprets it:
the receive itself failed, the message was not Text, the payload was not
valid JSON, the JSON did not decode to a VoiceEvent, or a decoded event. -/
inductive RecvOutcome where
  | wsFail
  | notText
  | badJson
  | badDecode
  | ok (ev : VoiceEvent)
deriving DecidableEq

/-- recv_message (voice.rs lines 215-228): fail on a receive error, on a
non-Text message (Protocol error), or on a JSON/schema decode failure;
otherwise return the decoded event. -/
def recv_message : RecvOutcome → Except VError VoiceEvent
  | .wsFail => .error .ws
  | .notText => .error (.protocol "Voice websocket message was not Text")
  | .badJson => .error .decode
  | .badDecode => .error .decode
  | .ok ev => .ok ev

/-! ### Handshake phase of voice_thread (voice.rs lines 241-296) -/

/-- Externally visible actions of the handshake phase, in order: binding
the UDP socket, sending the 4-byte discovery packet, and sending the
op 1 select-protocol websocket message (recording the discovered port). -/
inductive Action where
  | udpBind
  | udpSendDiscovery (bytes : List Nat)
  | wsSendSelect (portVal : Nat)
deriving DecidableEq

/-- Result of the handshake phase: the negotiated parameters, a typed
failure, or a panic (Key::from_slice expect on a key of the wrong size). -/
inductive HsResult where
  | ok (interval port ssrc : Nat) (modes : List String) (key : List Nat)
  | fail (e : VError)
  | panic
deriving DecidableEq

/-- Environment for the UDP and websocket operations of the handshake:
whether each fallible external operation succeeds, and the bytes of the
received discovery response datagram. -/
structure UdpEnv where
  bindOk : Bool
  resolveOk : Bool
  resolveSome : Bool
  discSendOk : Bool
  discRecvOk : Bool
  response : List Nat
  selectSendOk : Bool
deriving DecidableEq

/-- Parse the discovery response (voice.rs lines 262-266): discard four
padding bytes (a little-endian u32), then read a little-endian u16 port.
Fewer than six received bytes make one of the cursor reads fail. -/
def parseDiscovery (b : List Nat) : Option Nat :=
  match b with
  | _ :: _ :: _ :: _ :: p0 :: p1 :: _ => some (p0 + 256 * p1)
  | _ => none

/-- The discard-until-Ready loop (voice.rs lines 283-296): read messages,
skipping Unknown (logged) and any other non-Ready variant, until a Ready
arrives; build the key from its secret_key (an expect that panics unless
it is 32 bytes long), then fail unless its mode is xsalsa20_poly1305.
An exhausted message list models a failing receive. -/
def readyLoop (interval port ssrc : Nat) (modes : List String)
    (acts : List Action) : List RecvOutcome → List Action × HsResult
  | [] => (acts, .fail .ws)
  | m :: rest =>
    match recv_message m with
    | .error e => (acts, .fail e)
    | .ok (.ready mode secret) =>
      if secret.length = 32 then
        if mode = "xsalsa20_poly1305" then
          (acts, .ok interval port ssrc modes secret)
        else
          (acts, .fail (.protocol "Voice mode in Ready was not \"xsalsa20_poly1305\""))
      else (acts, .panic)
    | .ok (.unknown _) => readyLoop interval port ssrc modes acts rest
    | .ok (.handshake _ _ _ _) => readyLoop interval port ssrc modes acts rest

/-- The handshake phase of voice_thread (voice.rs lines 241-296): receive
the first message and require the Handshake variant; require mode
xsalsa20_poly1305 in its modes list; bind a UDP socket and send the
big-endian ssrc as discovery; receive and parse the discovery response;
send the op 1 select-protocol message; then wait for Ready.  The emitted
action list records, in order, the external sends that succeeded before
the phase ended. -/
def voiceHandshake (msgs : List RecvOutcome) (env : UdpEnv) : List Action × HsResult :=
  match msgs with
  | [] => ([], .fail .ws)
  | m :: rest =>
    match recv_message m with
    | .error e => ([], .fail e)
    | .ok ev =>
      match ev with
      | .handshake interval port ssrc modes =>
        if !(modes.contains "xsalsa20_poly1305") then
          ([], .fail (.protocol "Voice mode \"xsalsa20_poly1305\" unavailable"))
        else if !env.bindOk then ([], .fail .io)
        else if !env.resolveOk then ([.udpBind], .fail .io)
        else if !env.resolveSome then
          ([.udpBind], .fail (.other "Failed to resolve voice hostname"))
        else if !env.discSendOk then ([.udpBind], .fail .io)
        else
          let acts1 : List Action := [.udpBind, .udpSendDiscovery (be32 ssrc)]
          if !env.discRecvOk then (acts1, .fail .io)
          else
            match parseDiscovery env.response with
            | none => (acts1, .fail .io)
            | some portNum =>
              if !env.selectSendOk then (acts1, .fail .ws)
              else
                readyLoop interval port ssrc modes
                  (acts1 ++ [.wsSendSelect portNum]) rest
      | _ => ([], .fail (.protocol "First voice event was not Handshake"))

/-! ### Session controller: VoiceConnection (voice.rs lines 32-141)

The mpsc channel is modelled by the list of buffered commands together
with two flags: receiverHeld says whether the controller still holds the
receiving end in its receiver field (receiver.is_some()), and
channelAlive says whether the receiving end of the current channel still
exists anywhere (held by the controller or owned by a live voice
thread); a send succeeds exactly when channelAlive is true. -/

/-- Model of the VoiceConnection struct. -/
structure VC where
  userId : Nat
  sessionId : Option String
  queue : List Status
  receiverHeld : Bool
  channelAlive : Bool
deriving DecidableEq

/-- VoiceConnection::new (voice.rs lines 41-49): a fresh channel whose
receiver the controller holds. -/
def VC.new (uid : Nat) : VC :=
  ⟨uid, none, [], true, true⟩

/-- VoiceConnection::play (voice.rs lines 52-54): send Status::Source on
the channel; the send succeeds (buffering the command) exactly when the
receiving end is alive, and its result is discarded either way. -/
def play (vc : VC) (s : ByteSource) : VC :=
  if vc.channelAlive then { vc with queue := vc.queue ++ [.source s] } else vc

/-- VoiceConnection::stop (voice.rs lines 57-59): send Status::Stop. -/
def VC.sendStop (vc : VC) : VC :=
  if vc.channelAlive then { vc with queue := vc.queue ++ [.stop] } else vc

/-- VoiceConnection::disconnect (voice.rs lines 92-96): install a fresh
channel, the controller holding its receiver. -/
def disconnect (vc : VC) : VC :=
  { vc with queue := [], receiverHeld := true, channelAlive := true }

/-- VoiceConnection::is_running (voice.rs lines 85-90): when the receiver
field is empty, probe by sending Poke and report whether the send
succeeded (the Poke itself is a no-op for the drain); when the controller
still holds the receiver, report false. -/
def is_running (vc : VC) : Bool :=
  if vc.receiverHeld then false else vc.channelAlive

/-- Environment for the fallible external operations of connect:
URL parsing, the websocket connect / request send / response validation,
the identify send, and the thread spawn. -/
structure ConnectEnv where
  urlParseOk : Bool
  wsConnectOk : Bool
  requestSendOk : Bool
  validateOk : Bool
  identifySendOk : Bool
  spawnOk : Bool
deriving DecidableEq

/-- A ConnectEnv in which every external operation succeeds. -/
def allOkEnv : ConnectEnv :=
  ⟨true, true, true, true, true, true⟩

/-- Outcome of connect: success (carrying the updated controller and the
command queue handed to the spawned voice thread), a typed error
(the taken receiver is dropped on the early return, so the channel is
dead), or a panic from the expect on a missing session id. -/
inductive ConnectOut where
  | ok (vc : VC) (threadQueue : List Status)
  | err (vc : VC) (e : VError)
  | panic
deriving DecidableEq

/-- Strip a trailing ":80" from the endpoint (voice.rs lines 110-113). -/
def cleanEndpoint (e : String) : String :=
  if e.endsWith ":80" then e.dropRight 3 else e

/-- VoiceConnection::connect (voice.rs lines 98-140): take the pending
receiver (with whatever commands it has buffered), or build a fresh
channel when there is none; clean the endpoint and parse the wss URL;
connect the websocket, send the request and validate the response; build
the identify message (an expect that panics when no session id was ever
recorded); send it; spawn the voice thread, handing it the taken
receiver.  Any early error return drops the taken receiver, killing the
channel. -/
def connect (vc : VC) (endpoint : String) (env : ConnectEnv) : ConnectOut :=
  let rxQueue := if vc.receiverHeld then vc.queue else []
  let vc1 : VC :=
    { vc with queue := [], receiverHeld := false, channelAlive := true }
  let vcDead : VC := { vc1 with channelAlive := false }
  let _ep := cleanEndpoint endpoint
  if !env.urlParseOk then .err vcDead (.other "Invalid URL in Voice::connect()")
  else if !env.wsConnectOk then .err vcDead .ws
  else if !env.requestSendOk then .err vcDead .ws
  else if !env.validateOk then .err vcDead .ws
  else
    match vc1.sessionId with
    | none => .panic
    | some _ =>
      if !env.identifySendOk then .err vcDead .ws
      else if !env.spawnOk then .err vcDead .io
      else .ok vc1 rxQueue

/-- Events consumed by VoiceConnection::update. -/
inductive Event where
  | voiceStateUpdate (userId : Nat) (sessionId : String) (channelId : Option Nat)
  | voiceServerUpdate (serverId : Nat) (endpoint : Option String) (token : String)
  | otherEvent
deriving DecidableEq

/-- Outcome of update: a normal return (with the spawned thread
queue when an activation happened), or a panic — update unwraps the
result of connect with expect (voice.rs line 75), so any connect error
panics. -/
inductive UpdateOut where
  | ok (vc : VC) (spawned : Option (List Status))
  | panicked
deriving DecidableEq

/-- VoiceConnection::update (voice.rs lines 62-82): a voice-state update
for this user records the session id and deactivates when the channel id
is absent; a voice-server update activates via connect when an endpoint
is present (panicking on a connect error through expect) and deactivates
otherwise; all other events are ignored. -/
def update (vc : VC) (ev : Event) (env : ConnectEnv) : UpdateOut :=
  match ev with
  | .voiceStateUpdate uid sid chan =>
    if uid = vc.userId then
      let vc2 : VC := { vc with sessionId := some sid }
      if chan.isSome then .ok vc2 none else .ok (disconnect vc2) none
    else .ok vc none
  | .voiceServerUpdate _ endpoint _ =>
    match endpoint with
    | some ep =>
      match connect vc ep env with
      | .ok vc2 q => .ok vc2 (some q)
      | .err _ _ => .panicked
      | .panic => .panicked
    | none => .ok (disconnect vc) none
  | .otherEvent => .ok vc none

/-- The effect, on the controller's view, of the spawned voice thread
terminating (normally or by panic): the receiver it owned is dropped, so
the channel is disconnected and later sends fail. -/
def afterThreadExit (vc : VC) : VC :=
  { vc with channelAlive := false }

/-- The controller's view once the spawned voice thread has processed its
handshake phase: on handshake success the thread lives on into the
transport loop (the channel stays alive); on a failure the thread
terminates — voice_thread's Err is unwrapped by the spawn closure, a
panic that drops the receiver — and on a panic likewise, so in both
cases the channel dies. -/
def controllerAfterHandshake (vc2 : VC) (hs : HsResult) : VC :=
  match hs with
  | .ok _ _ _ _ _ => vc2
  | .fail _ => afterThreadExit vc2
  | .panic => afterThreadExit vc2

/-! ## Theorems -/

theorem buildHeader_length (a b c : Nat) : (buildHeader a b c).length = 12 := by
  simp [buildHeader, be16, be32]

/-- C9: the 12-byte RTP-style header round-trips: for every
(sequence : u16, timestamp : u32, ssrc : u32) triple, building the header
as 0x80 0x78, big-endian u16 sequence, big-endian u32 timestamp,
big-endian u32 ssrc, and parsing those 12 bytes back, yields exactly the
original triple. -/
theorem C9_header_round_trip (sequence timestamp ssrc : Nat)
    (hs : sequence < 65536) (ht : timestamp < 4294967296)
    (hr : ssrc < 4294967296) :
    parseHeader (buildHeader sequence timestamp ssrc)
      = some (sequence, timestamp, ssrc) := by
  simp only [buildHeader, be16, be32, List.cons_append, List.nil_append,
    parseHeader, Option.some.injEq, Prod.mk.injEq]
  refine ⟨?_, ?_, ?_⟩ <;> omega

/-- Witness for C9 at a concrete triple. -/
theorem C9_header_round_trip_witness :
    parseHeader (buildHeader 513 3735928559 305419896)
      = some (513, 3735928559, 305419896) :=
  C9_header_round_trip 513 3735928559 305419896
    (by decide) (by norm_num) (by norm_num)

/-! ### next_frame lemmas (claim C10) -/

theorem nextFrameAux_eof (r : Nat) (src : ByteSource) (c : Nat)
    (h : src.ending = .eof) :
    ∃ rest, nextFrameAux src r c = .ok (c + min r (src.bytes.length / 2), rest) := by
  induction r generalizing src c with
  | zero => exact ⟨src, by simp [nextFrameAux]⟩
  | succ r ih =>
    match hb : src.bytes with
    | [] =>
      refine ⟨⟨[], src.ending⟩, ?_⟩
      simp [nextFrameAux, read_i16_le, hb, h]
    | [b0] =>
      refine ⟨⟨[], src.ending⟩, ?_⟩
      simp [nextFrameAux, read_i16_le, hb, h]
    | b0 :: b1 :: rest2 =>
      obtain ⟨restS, hrec⟩ := ih ⟨rest2, src.ending⟩ (c + 1) h
      refine ⟨restS, ?_⟩
      simp only [nextFrameAux, read_i16_le, hb]
      rw [hrec]
      have : c + min (r + 1) ((rest2.length + 2) / 2)
          = c + 1 + min r (rest2.length / 2) := by omega
      simp only [hb, List.length_cons]
      congr 2
      omega

theorem nextFrameAux_filled (r : Nat) (src : ByteSource) (c : Nat)
    (h : 2 * r ≤ src.bytes.length) :
    ∃ rest, nextFrameAux src r c = .ok (c + r, rest) := by
  induction r generalizing src c with
  | zero => exact ⟨src, by simp [nextFrameAux]⟩
  | succ r ih =>
    match hb : src.bytes with
    | [] =>
      rw [hb] at h
      simp only [List.length_nil] at h
      omega
    | [b0] =>
      rw [hb] at h
      simp only [List.length_cons, List.length_nil] at h
      omega
    | b0 :: b1 :: rest2 =>
      have hlen : 2 * r ≤ rest2.length := by
        rw [hb] at h
        simp only [List.length_cons] at h
        omega
      obtain ⟨restS, hrec⟩ := ih ⟨rest2, src.ending⟩ (c + 1) hlen
      refine ⟨restS, ?_⟩
      simp only [nextFrameAux, read_i16_le, hb]
      rw [hrec]
      congr 2
      omega

theorem nextFrameAux_ioErr (r : Nat) (src : ByteSource) (c : Nat)
    (h : src.ending = .ioErr) (hl : src.bytes.length < 2 * r) :
    nextFrameAux src r c = .error () := by
  induction r generalizing src c with
  | zero => omega
  | succ r ih =>
    match hb : src.bytes with
    | [] => simp [nextFrameAux, read_i16_le, hb, h]
    | [b0] => simp [nextFrameAux, read_i16_le, hb, h]
    | b0 :: b1 :: rest2 =>
      have hlen : rest2.length < 2 * r := by
        rw [hb] at hl; simp at hl; omega
      simp only [nextFrameAux, read_i16_le, hb]
      exact ih ⟨rest2, src.ending⟩ (c + 1) h hlen

/-- C10 (implicit): when the audio source reaches a clean end-of-stream
partway through a frame read — including mid-sample, with a dangling
byte of a 2-byte little-endian sample — next_frame returns Ok with the
number of complete samples read so far (the dangling byte is discarded);
next_frame returns an error exactly when a genuine underlying I/O error
(not EOF) is hit within the frame. -/
theorem C10_next_frame_eof (src : ByteSource) (buflen : Nat) :
    (src.ending = .eof →
      ∃ rest, next_frame src buflen
        = .ok (min buflen (src.bytes.length / 2), rest))
    ∧ (next_frame src buflen = .error ()
        ↔ src.ending = .ioErr ∧ src.bytes.length < 2 * buflen)
    ∧ (∀ ssrc st t, st.audio = some src → next_frame src 960 = .error () →
        frameCycle ssrc st t = .halt [] .errAbort) := by
  refine ⟨?_, ?_, ?_⟩
  · intro h
    simpa [next_frame] using nextFrameAux_eof buflen src 0 h
  · constructor
    · intro herr
      cases hE : src.ending with
      | eof =>
        obtain ⟨rest, hr⟩ := nextFrameAux_eof buflen src 0 hE
        rw [next_frame, hr] at herr
        simp at herr
      | ioErr =>
        refine ⟨rfl, ?_⟩
        by_contra hge
        obtain ⟨rest, hr⟩ := nextFrameAux_filled buflen src 0 (by omega)
        rw [next_frame, hr] at herr
        simp at herr
    · rintro ⟨h1, h2⟩
      exact nextFrameAux_ioErr buflen src 0 h1 h2
  · intro ssrc st t ha herr
    have hrf : readFrame st.audio = .error () := by
      rw [ha]
      simp [readFrame, herr]
    simp [frameCycle, hrf]

/-- Witness for C10: a 3-byte source (one complete sample and one
dangling byte) then EOF gives Ok with one sample; a one-byte source
ending in an I/O error makes next_frame fail and the frame cycle abort
with the loop's typed error. -/
theorem C10_next_frame_eof_witness :
    (∃ rest, next_frame ⟨[1, 2, 3], EndKind.eof⟩ 960 = .ok (1, rest))
    ∧ next_frame ⟨[1], EndKind.ioErr⟩ 960 = .error ()
    ∧ frameCycle 7 { wStPlay with audio := some ⟨[1], EndKind.ioErr⟩ } wTickSilent
        = .halt [] .errAbort := by
  refine ⟨?_, ?_, ?_⟩
  · simpa using (C10_next_frame_eof ⟨[1, 2, 3], EndKind.eof⟩ 960).1 rfl
  · exact (C10_next_frame_eof ⟨[1], EndKind.ioErr⟩ 960).2.1.mpr ⟨rfl, by decide⟩
  · exact (C10_next_frame_eof ⟨[1], EndKind.ioErr⟩ 960).2.2 7
      { wStPlay with audio := some ⟨[1], EndKind.ioErr⟩ } wTickSilent rfl rfl

/-! ### Handshake claims C6 and C7 -/

/-- C6: if the first control-channel message received after Identify
decodes to any variant other than Handshake, the handshake fails with a
Protocol error, and no external action — in particular no UDP bind and
hence no UDP traffic of any kind — has been performed. -/
theorem C6_wrong_first_message (msgs : List RecvOutcome) (env : UdpEnv)
    (ev : VoiceEvent) (rest : List RecvOutcome)
    (hm : msgs = .ok ev :: rest) (hne : ev.isHandshake = false) :
    voiceHandshake msgs env
      = ([], .fail (.protocol "First voice event was not Handshake")) := by
  subst hm
  cases ev with
  | handshake i p s m => simp [VoiceEvent.isHandshake] at hne
  | ready mode key => simp [voiceHandshake, recv_message]
  | unknown op => simp [voiceHandshake, recv_message]

/-- Witness for C6: a first message decoding to Ready. -/
theorem C6_wrong_first_message_witness :
    voiceHandshake [RecvOutcome.ok (.ready "xsalsa20_poly1305" [])]
        ⟨true, true, true, true, true, [], true⟩
      = ([], .fail (.protocol "First voice event was not Handshake")) :=
  C6_wrong_first_message _ _ (.ready "xsalsa20_poly1305" []) [] rfl rfl

/-- C7: if the Handshake message's modes list does not contain the string
"xsalsa20_poly1305", the session aborts with a Protocol error with no
external action performed: no UDP packet is sent and no further
control-channel message is emitted. -/
theorem C7_missing_mode (msgs : List RecvOutcome) (env : UdpEnv)
    (i p s : Nat) (modes : List String) (rest : List RecvOutcome)
    (hm : msgs = .ok (.handshake i p s modes) :: rest)
    (hmode : modes.contains "xsalsa20_poly1305" = false) :
    voiceHandshake msgs env
      = ([], .fail (.protocol "Voice mode \"xsalsa20_poly1305\" unavailable")) := by
  subst hm
  have hnm : "xsalsa20_poly1305" ∉ modes := by simpa using hmode
  simp [voiceHandshake, recv_message, hnm]

/-- Witness for C7: a Handshake whose modes list is just "plain". -/
theorem C7_missing_mode_witness :
    voiceHandshake [RecvOutcome.ok (.handshake 5000 4000 3735928559 ["plain"])]
        ⟨true, true, true, true, true, [], true⟩
      = ([], .fail (.protocol "Voice mode \"xsalsa20_poly1305\" unavailable")) :=
  C7_missing_mode _ _ 5000 4000 3735928559 ["plain"] [] rfl (by decide)

/-! ### Evaluation lemmas for one frame cycle -/

theorem set_speaking_same (b ok : Bool) :
    set_speaking b b ok = ([.speakCall b], b, true) := by
  simp [set_speaking]

theorem set_speaking_diff_ok (store b : Bool) (h : store ≠ b) :
    set_speaking store b true = ([.speakCall b, .speakingMsg b], b, true) := by
  simp [set_speaking, h]

theorem set_speaking_diff_fail (store b : Bool) (h : store ≠ b) :
    set_speaking store b false = ([.speakCall b], b, false) := by
  simp [set_speaking, h]

theorem frameCycle_readErr (ssrc : Nat) (st : LoopState) (t : Tick)
    (hr : readFrame st.audio = .error ()) :
    frameCycle ssrc st t = .halt [] .errAbort := by
  simp [frameCycle, hr]

theorem frameCycle_silent (ssrc : Nat) (st : LoopState) (t : Tick)
    (audio2 : Option ByteSource) (es0 : List Emit) (store : Bool)
    (hr : readFrame st.audio = .ok (0, audio2))
    (hss : set_speaking st.speaking false t.speakSendOk = (es0, store, true)) :
    frameCycle ssrc st t = .cont es0 { st with audio := audio2, speaking := store } := by
  simp [frameCycle, hr, hss]

theorem frameCycle_silent_fail (ssrc : Nat) (st : LoopState) (t : Tick)
    (audio2 : Option ByteSource) (es0 : List Emit) (store : Bool)
    (hr : readFrame st.audio = .ok (0, audio2))
    (hss : set_speaking st.speaking false t.speakSendOk = (es0, store, false)) :
    frameCycle ssrc st t = .halt es0 .errAbort := by
  simp [frameCycle, hr, hss]

theorem frameCycle_speakFail (ssrc : Nat) (st : LoopState) (t : Tick)
    (len : Nat) (audio2 : Option ByteSource) (es1 : List Emit) (store : Bool)
    (hr : readFrame st.audio = .ok (len, audio2)) (hl : len ≠ 0)
    (hss : set_speaking st.speaking true t.speakSendOk = (es1, store, false)) :
    frameCycle ssrc st t = .halt es1 .errAbort := by
  simp [frameCycle, hr, hss, hl]

theorem frameCycle_encodePanic (ssrc : Nat) (st : LoopState) (t : Tick)
    (len : Nat) (audio2 : Option ByteSource) (es1 : List Emit) (store : Bool)
    (hr : readFrame st.audio = .ok (len, audio2)) (hl : len ≠ 0)
    (hss : set_speaking st.speaking true t.speakSendOk = (es1, store, true))
    (henc : t.encodeRes = none) :
    frameCycle ssrc st t = .halt es1 .panicAbort := by
  simp [frameCycle, hr, hss, hl, henc]

theorem frameCycle_udpFail (ssrc : Nat) (st : LoopState) (t : Tick)
    (len n : Nat) (audio2 : Option ByteSource) (es1 : List Emit) (store : Bool)
    (hr : readFrame st.audio = .ok (len, audio2)) (hl : len ≠ 0)
    (hss : set_speaking st.speaking true t.speakSendOk = (es1, store, true))
    (henc : t.encodeRes = some n) (hudp : t.udpSendOk = false) :
    frameCycle ssrc st t = .halt es1 .errAbort := by
  simp [frameCycle, hr, hss, hl, henc, hudp]

theorem frameCycle_packet (ssrc : Nat) (st : LoopState) (t : Tick)
    (len n : Nat) (audio2 : Option ByteSource) (es1 : List Emit) (store : Bool)
    (hr : readFrame st.audio = .ok (len, audio2)) (hl : len ≠ 0)
    (hss : set_speaking st.speaking true t.speakSendOk = (es1, store, true))
    (henc : t.encodeRes = some n) (hudp : t.udpSendOk = true) :
    frameCycle ssrc st t
      = .cont (es1 ++ [.packet st.sequence st.timestamp
            (buildHeader st.sequence st.timestamp ssrc)
            (buildHeader st.sequence st.timestamp ssrc ++ st.nonce.drop 12)])
          { st with
            audio := audio2, speaking := store,
            nonce := buildHeader st.sequence st.timestamp ssrc ++ st.nonce.drop 12,
            sequence := (st.sequence + 1) % 65536,
            timestamp := (st.timestamp + 960) % 4294967296 } := by
  simp [frameCycle, hr, hss, hl, henc, hudp]

/-! ### Case analysis of one frame cycle -/

theorem frameCycle_spec (ssrc : Nat) (st : LoopState) (t : Tick) :
    (∀ es st2, frameCycle ssrc st t = .cont es st2 →
      ((seqsOf es = [] ∧ tssOf es = [] ∧ noncesOf es = []
          ∧ st2.sequence = st.sequence ∧ st2.timestamp = st.timestamp
          ∧ st2.nonce = st.nonce)
        ∨ (seqsOf es = [st.sequence] ∧ tssOf es = [st.timestamp]
          ∧ noncesOf es = [(buildHeader st.sequence st.timestamp ssrc,
              buildHeader st.sequence st.timestamp ssrc ++ st.nonce.drop 12)]
          ∧ st2.sequence = (st.sequence + 1) % 65536
          ∧ st2.timestamp = (st.timestamp + 960) % 4294967296
          ∧ st2.nonce = buildHeader st.sequence st.timestamp ssrc ++ st.nonce.drop 12))
      ∧ (t.speakSendOk = true →
          speakMsgsOf es = changes st.speaking (speakCallsOf es)
          ∧ st2.speaking = lastVal st.speaking (speakCallsOf es)))
    ∧ (∀ es e, frameCycle ssrc st t = .halt es e →
        seqsOf es = [] ∧ tssOf es = [] ∧ noncesOf es = []
        ∧ (∀ st3, e ≠ RunEnd.ranOut st3)
        ∧ (t.speakSendOk = true →
            speakMsgsOf es = changes st.speaking (speakCallsOf es))) := by
  cases hr : readFrame st.audio with
  | error e0 =>
    cases e0
    rw [frameCycle_readErr ssrc st t hr]
    constructor
    · intro es st2 hc
      cases hc
    · intro es e hh
      cases hh
      refine ⟨rfl, rfl, rfl, ?_, ?_⟩
      · intro st3 hne
        cases hne
      · intro _
        simp [speakMsgsOf, speakCallsOf, changes]
  | ok val =>
    obtain ⟨len, audio2⟩ := val
    by_cases hl : len = 0
    · subst hl
      cases hsp : st.speaking with
      | false =>
        have hss : set_speaking st.speaking false t.speakSendOk
            = ([.speakCall false], false, true) := by
          rw [hsp]; exact set_speaking_same false t.speakSendOk
        rw [frameCycle_silent ssrc st t audio2 _ _ hr hss]
        constructor
        · intro es st2 hc
          cases hc
          constructor
          · exact Or.inl ⟨rfl, rfl, rfl, rfl, rfl, rfl⟩
          · intro _
            simp [speakMsgsOf, speakCallsOf, changes, lastVal, hsp]
        · intro es e hh
          cases hh
      | true =>
        cases hok : t.speakSendOk with
        | true =>
          have hss : set_speaking st.speaking false t.speakSendOk
              = ([.speakCall false, .speakingMsg false], false, true) := by
            rw [hsp, hok]; exact set_speaking_diff_ok true false (by decide)
          rw [frameCycle_silent ssrc st t audio2 _ _ hr hss]
          constructor
          · intro es st2 hc
            cases hc
            constructor
            · exact Or.inl ⟨rfl, rfl, rfl, rfl, rfl, rfl⟩
            · intro _
              simp [speakMsgsOf, speakCallsOf, changes, lastVal, hsp]
          · intro es e hh
            cases hh
        | false =>
          have hss : set_speaking st.speaking false t.speakSendOk
              = ([.speakCall false], false, false) := by
            rw [hsp, hok]; exact set_speaking_diff_fail true false (by decide)
          rw [frameCycle_silent_fail ssrc st t audio2 _ _ hr hss]
          constructor
          · intro es st2 hc
            cases hc
          · intro es e hh
            cases hh
            refine ⟨rfl, rfl, rfl, ?_, ?_⟩
            · intro st3 hne
              cases hne
            · intro hok2
              simp [hok] at hok2
    · cases hsp : st.speaking with
      | true =>
        have hss : set_speaking st.speaking true t.speakSendOk
            = ([.speakCall true], true, true) := by
          rw [hsp]; exact set_speaking_same true t.speakSendOk
        cases henc : t.encodeRes with
        | none =>
          rw [frameCycle_encodePanic ssrc st t len audio2 _ _ hr hl hss henc]
          constructor
          · intro es st2 hc
            cases hc
          · intro es e hh
            cases hh
            refine ⟨rfl, rfl, rfl, ?_, ?_⟩
            · intro st3 hne
              cases hne
            · intro _
              simp [speakMsgsOf, speakCallsOf, changes, hsp]
        | some n =>
          cases hudp : t.udpSendOk with
          | false =>
            rw [frameCycle_udpFail ssrc st t len n audio2 _ _ hr hl hss henc hudp]
            constructor
            · intro es st2 hc
              cases hc
            · intro es e hh
              cases hh
              refine ⟨rfl, rfl, rfl, ?_, ?_⟩
              · intro st3 hne
                cases hne
              · intro _
                simp [speakMsgsOf, speakCallsOf, changes, hsp]
          | true =>
            rw [frameCycle_packet ssrc st t len n audio2 _ _ hr hl hss henc hudp]
            constructor
            · intro es st2 hc
              cases hc
              constructor
              · refine Or.inr ⟨?_, ?_, ?_, rfl, rfl, rfl⟩ <;>
                  simp [seqsOf, tssOf, noncesOf]
              · intro _
                simp [speakMsgsOf, speakCallsOf, changes, lastVal, hsp]
            · intro es e hh
              cases hh
      | false =>
        cases hok : t.speakSendOk with
        | false =>
          have hss : set_speaking st.speaking true t.speakSendOk
              = ([.speakCall true], true, false) := by
            rw [hsp, hok]; exact set_speaking_diff_fail false true (by decide)
          rw [frameCycle_speakFail ssrc st t len audio2 _ _ hr hl hss]
          constructor
          · intro es st2 hc
            cases hc
          · intro es e hh
            cases hh
            refine ⟨rfl, rfl, rfl, ?_, ?_⟩
            · intro st3 hne
              cases hne
            · intro hok2
              simp [hok] at hok2
        | true =>
          have hss : set_speaking st.speaking true t.speakSendOk
              = ([.speakCall true, .speakingMsg true], true, true) := by
            rw [hsp, hok]; exact set_speaking_diff_ok false true (by decide)
          cases henc : t.encodeRes with
          | none =>
            rw [frameCycle_encodePanic ssrc st t len audio2 _ _ hr hl hss henc]
            constructor
            · intro es st2 hc
              cases hc
            · intro es e hh
              cases hh
              refine ⟨rfl, rfl, rfl, ?_, ?_⟩
              · intro st3 hne
                cases hne
              · intro _
                simp [speakMsgsOf, speakCallsOf, changes, hsp]
          | some n =>
            cases hudp : t.udpSendOk with
            | false =>
              rw [frameCycle_udpFail ssrc st t len n audio2 _ _ hr hl hss henc hudp]
              constructor
              · intro es st2 hc
                cases hc
              · intro es e hh
                cases hh
                refine ⟨rfl, rfl, rfl, ?_, ?_⟩
                · intro st3 hne
                  cases hne
                · intro _
                  simp [speakMsgsOf, speakCallsOf, changes, hsp]
            | true =>
              rw [frameCycle_packet ssrc st t len n audio2 _ _ hr hl hss henc hudp]
              constructor
              · intro es st2 hc
                cases hc
                constructor
                · refine Or.inr ⟨?_, ?_, ?_, rfl, rfl, rfl⟩ <;>
                    simp [seqsOf, tssOf, noncesOf]
                · intro _
                  simp [speakMsgsOf, speakCallsOf, changes, lastVal, hsp]
              · intro es e hh
                cases hh

/-! ### Evaluation lemmas for one loop iteration -/

theorem stepTick_disc (ssrc : Nat) (st : LoopState) (t : Tick)
    (hd : t.disconnected = true) :
    stepTick ssrc st t = .halt [] .graceful := by
  simp [stepTick, hd]

theorem stepTick_kaFail (ssrc : Nat) (st : LoopState) (t : Tick)
    (hd : t.disconnected = false) (hg : (t.kaFires && !t.kaSendOk) = true) :
    stepTick ssrc st t = .halt [] .errAbort := by
  simp only [stepTick, hd, hg, Bool.false_eq_true, if_false, if_true]

theorem stepTick_noAudio (ssrc : Nat) (st : LoopState) (t : Tick)
    (hd : t.disconnected = false) (hg : (t.kaFires && !t.kaSendOk) = false)
    (haf : t.audioFires = false) :
    stepTick ssrc st t
      = .cont (if t.kaFires then [.keepalive] else [])
          { st with audio := drainAudio t.cmds st.audio } := by
  simp only [stepTick, hd, hg, haf, Bool.false_eq_true, if_false, Bool.not_false, if_true]

theorem stepTick_audio_cont (ssrc : Nat) (st : LoopState) (t : Tick)
    (es0 : List Emit) (st2 : LoopState)
    (hd : t.disconnected = false) (hg : (t.kaFires && !t.kaSendOk) = false)
    (haf : t.audioFires = true)
    (hfc : frameCycle ssrc { st with audio := drainAudio t.cmds st.audio } t
      = .cont es0 st2) :
    stepTick ssrc st t
      = .cont ((if t.kaFires then [.keepalive] else []) ++ es0) st2 := by
  simp only [stepTick, hd, hg, haf, Bool.not_true, Bool.false_eq_true, if_false,
    if_true, hfc]

theorem stepTick_audio_halt (ssrc : Nat) (st : LoopState) (t : Tick)
    (es0 : List Emit) (e0 : RunEnd)
    (hd : t.disconnected = false) (hg : (t.kaFires && !t.kaSendOk) = false)
    (haf : t.audioFires = true)
    (hfc : frameCycle ssrc { st with audio := drainAudio t.cmds st.audio } t
      = .halt es0 e0) :
    stepTick ssrc st t
      = .halt ((if t.kaFires then [.keepalive] else []) ++ es0) e0 := by
  simp only [stepTick, hd, hg, haf, Bool.not_true, Bool.false_eq_true, if_false,
    if_true, hfc]

theorem kaTrace_empty (b : Bool) :
    seqsOf (if b then [Emit.keepalive] else []) = []
    ∧ tssOf (if b then [Emit.keepalive] else []) = []
    ∧ noncesOf (if b then [Emit.keepalive] else []) = []
    ∧ speakMsgsOf (if b then [Emit.keepalive] else []) = []
    ∧ speakCallsOf (if b then [Emit.keepalive] else []) = [] := by
  cases b <;> simp [seqsOf, tssOf, noncesOf, speakMsgsOf, speakCallsOf]

theorem seqsOf_append (l1 l2 : List Emit) :
    seqsOf (l1 ++ l2) = seqsOf l1 ++ seqsOf l2 := by
  simp [seqsOf]

theorem tssOf_append (l1 l2 : List Emit) :
    tssOf (l1 ++ l2) = tssOf l1 ++ tssOf l2 := by
  simp [tssOf]

theorem noncesOf_append (l1 l2 : List Emit) :
    noncesOf (l1 ++ l2) = noncesOf l1 ++ noncesOf l2 := by
  simp [noncesOf]

theorem speakMsgsOf_append (l1 l2 : List Emit) :
    speakMsgsOf (l1 ++ l2) = speakMsgsOf l1 ++ speakMsgsOf l2 := by
  simp [speakMsgsOf]

theorem speakCallsOf_append (l1 l2 : List Emit) :
    speakCallsOf (l1 ++ l2) = speakCallsOf l1 ++ speakCallsOf l2 := by
  simp [speakCallsOf]

/-! ### Case analysis of one loop iteration -/

theorem stepTick_spec (ssrc : Nat) (st : LoopState) (t : Tick) :
    (∀ es st2, stepTick ssrc st t = .cont es st2 →
      ((seqsOf es = [] ∧ tssOf es = [] ∧ noncesOf es = []
          ∧ st2.sequence = st.sequence ∧ st2.timestamp = st.timestamp
          ∧ st2.nonce = st.nonce)
        ∨ (seqsOf es = [st.sequence] ∧ tssOf es = [st.timestamp]
          ∧ noncesOf es = [(buildHeader st.sequence st.timestamp ssrc,
              buildHeader st.sequence st.timestamp ssrc ++ st.nonce.drop 12)]
          ∧ st2.sequence = (st.sequence + 1) % 65536
          ∧ st2.timestamp = (st.timestamp + 960) % 4294967296
          ∧ st2.nonce = buildHeader st.sequence st.timestamp ssrc ++ st.nonce.drop 12))
      ∧ (t.speakSendOk = true →
          speakMsgsOf es = changes st.speaking (speakCallsOf es)
          ∧ st2.speaking = lastVal st.speaking (speakCallsOf es)))
    ∧ (∀ es e, stepTick ssrc st t = .halt es e →
        seqsOf es = [] ∧ tssOf es = [] ∧ noncesOf es = []
        ∧ (∀ st3, e ≠ RunEnd.ranOut st3)
        ∧ (t.speakSendOk = true →
            speakMsgsOf es = changes st.speaking (speakCallsOf es))) := by
  cases hd : t.disconnected with
  | true =>
    rw [stepTick_disc ssrc st t hd]
    constructor
    · intro es st2 hc
      cases hc
    · intro es e hh
      cases hh
      refine ⟨rfl, rfl, rfl, ?_, ?_⟩
      · intro st3 hne
        cases hne
      · intro _
        simp [speakMsgsOf, speakCallsOf, changes]
  | false =>
    cases hg : (t.kaFires && !t.kaSendOk) with
    | true =>
      rw [stepTick_kaFail ssrc st t hd hg]
      constructor
      · intro es st2 hc
        cases hc
      · intro es e hh
        cases hh
        refine ⟨rfl, rfl, rfl, ?_, ?_⟩
        · intro st3 hne
          cases hne
        · intro _
          simp [speakMsgsOf, speakCallsOf, changes]
    | false =>
      cases haf : t.audioFires with
      | false =>
        rw [stepTick_noAudio ssrc st t hd hg haf]
        constructor
        · intro es st2 hc
          cases hc
          obtain ⟨k1, k2, k3, k4, k5⟩ := kaTrace_empty t.kaFires
          refine ⟨Or.inl ⟨k1, k2, k3, rfl, rfl, rfl⟩, ?_⟩
          intro _
          rw [k4, k5]
          exact ⟨rfl, rfl⟩
        · intro es e hh
          cases hh
      | true =>
        have FS := frameCycle_spec ssrc { st with audio := drainAudio t.cmds st.audio } t
        obtain ⟨k1, k2, k3, k4, k5⟩ := kaTrace_empty t.kaFires
        cases hfc : frameCycle ssrc { st with audio := drainAudio t.cmds st.audio } t with
        | cont es0 st2 =>
          obtain ⟨hdisj, hspk⟩ := FS.1 es0 st2 hfc
          dsimp only at hdisj hspk
          rw [stepTick_audio_cont ssrc st t es0 st2 hd hg haf hfc]
          constructor
          · intro es st2x hc
            cases hc
            constructor
            · rcases hdisj with ⟨h1, h2, h3, h4, h5, h6⟩ | ⟨h1, h2, h3, h4, h5, h6⟩
              · refine Or.inl ⟨?_, ?_, ?_, h4, h5, h6⟩
                · simp [seqsOf_append, k1, h1]
                · simp [tssOf_append, k2, h2]
                · simp [noncesOf_append, k3, h3]
              · refine Or.inr ⟨?_, ?_, ?_, h4, h5, h6⟩
                · simp [seqsOf_append, k1, h1]
                · simp [tssOf_append, k2, h2]
                · simp [noncesOf_append, k3, h3]
            · intro hok
              obtain ⟨hm, hl2⟩ := hspk hok
              constructor
              · simp [speakMsgsOf_append, speakCallsOf_append, k4, k5, hm]
              · simp [speakCallsOf_append, k5, hl2]
          · intro es e hh
            cases hh
        | halt es0 e0 =>
          obtain ⟨h1, h2, h3, h4, h5⟩ := FS.2 es0 e0 hfc
          dsimp only at h1 h2 h3 h5
          rw [stepTick_audio_halt ssrc st t es0 e0 hd hg haf hfc]
          constructor
          · intro es st2x hc
            cases hc
          · intro es e hh
            cases hh
            refine ⟨?_, ?_, ?_, h4, ?_⟩
            · simp [seqsOf_append, k1, h1]
            · simp [tssOf_append, k2, h2]
            · simp [noncesOf_append, k3, h3]
            · intro hok
              simp [speakMsgsOf_append, speakCallsOf_append, k4, k5, h5 hok]

/-! ### Running the loop -/

theorem runLoop_nil (ssrc : Nat) (st : LoopState) :
    runLoop ssrc st [] = ([], .ranOut st) := rfl

theorem runLoop_cons_cont (ssrc : Nat) (st st2 : LoopState) (t : Tick)
    (ts : List Tick) (es : List Emit)
    (h : stepTick ssrc st t = .cont es st2) :
    runLoop ssrc st (t :: ts)
      = (es ++ (runLoop ssrc st2 ts).1, (runLoop ssrc st2 ts).2) := by
  simp [runLoop, h]

theorem runLoop_cons_halt (ssrc : Nat) (st : LoopState) (t : Tick)
    (ts : List Tick) (es : List Emit) (e : RunEnd)
    (h : stepTick ssrc st t = .halt es e) :
    runLoop ssrc st (t :: ts) = (es, e) := by
  simp [runLoop, h]

theorem apList_congr (step modulus a b : Nat) (h : a % modulus = b % modulus) :
    ∀ n, apList a step modulus n = apList b step modulus n := by
  intro n
  induction n generalizing a b with
  | zero => rfl
  | succ n ih =>
    simp only [apList, h]
    refine congrArg _ (ih (a + step) (b + step) ?_)
    rw [Nat.add_mod a, Nat.add_mod b, h]

/-- Sequence and timestamp values of the packets sent from any reachable
loop state form arithmetic progressions mod 2^16 (step 1) and mod 2^32
(step 960), and the counters advance by exactly the number of packets. -/
theorem runLoop_seqs (ssrc : Nat) (ticks : List Tick) (st : LoopState)
    (hs : st.sequence < 65536) (ht : st.timestamp < 4294967296) :
    seqsOf (runLoop ssrc st ticks).1
      = apList st.sequence 1 65536 (seqsOf (runLoop ssrc st ticks).1).length
    ∧ tssOf (runLoop ssrc st ticks).1
      = apList st.timestamp 960 4294967296 (seqsOf (runLoop ssrc st ticks).1).length
    ∧ ∀ st2, (runLoop ssrc st ticks).2 = .ranOut st2 →
        st2.sequence = (st.sequence + (seqsOf (runLoop ssrc st ticks).1).length) % 65536
        ∧ st2.timestamp = (st.timestamp
            + 960 * (seqsOf (runLoop ssrc st ticks).1).length) % 4294967296 := by
  induction ticks generalizing st with
  | nil =>
    rw [runLoop_nil]
    refine ⟨rfl, rfl, ?_⟩
    intro st2 h2
    cases h2
    constructor
    · simp [seqsOf]
      omega
    · simp [seqsOf]
      omega
  | cons t ts ih =>
    cases hstep : stepTick ssrc st t with
    | halt es0 e0 =>
      rw [runLoop_cons_halt ssrc st t ts es0 e0 hstep]
      obtain ⟨h1, h2, _, hne, _⟩ := (stepTick_spec ssrc st t).2 es0 e0 hstep
      refine ⟨?_, ?_, ?_⟩
      · simp [h1, apList]
      · simp [h1, h2, apList]
      · intro st2 habs
        exact absurd habs (hne st2)
    | cont es0 st2 =>
      rw [runLoop_cons_cont ssrc st st2 t ts es0 hstep]
      obtain ⟨hdisj, _⟩ := (stepTick_spec ssrc st t).1 es0 st2 hstep
      rcases hdisj with ⟨h1, h2, _, h4, h5, _⟩ | ⟨h1, h2, _, h4, h5, _⟩
      · have hs2 : st2.sequence < 65536 := by rw [h4]; exact hs
        have ht2 : st2.timestamp < 4294967296 := by rw [h5]; exact ht
        obtain ⟨i1, i2, i3⟩ := ih st2 hs2 ht2
        rw [h4] at i1
        rw [h5] at i2
        refine ⟨?_, ?_, ?_⟩
        · simp only [seqsOf_append, h1, List.nil_append]
          exact i1
        · simp only [seqsOf_append, tssOf_append, h1, h2, List.nil_append]
          exact i2
        · intro st3 h3
          simp only at h3
          obtain ⟨j1, j2⟩ := i3 st3 h3
          rw [h4] at j1
          rw [h5] at j2
          simp only [seqsOf_append, h1, List.nil_append]
          exact ⟨j1, j2⟩
      · have hs2 : st2.sequence < 65536 := by rw [h4]; exact Nat.mod_lt _ (by norm_num)
        have ht2 : st2.timestamp < 4294967296 := by
          rw [h5]; exact Nat.mod_lt _ (by norm_num)
        obtain ⟨i1, i2, i3⟩ := ih st2 hs2 ht2
        rw [h4] at i1
        rw [h5] at i2
        refine ⟨?_, ?_, ?_⟩
        · simp only [seqsOf_append, h1, List.singleton_append, List.length_cons]
          rw [apList, Nat.mod_eq_of_lt hs]
          exact congrArg (List.cons st.sequence)
            (i1.trans (apList_congr 1 65536 ((st.sequence + 1) % 65536)
              (st.sequence + 1) (by omega) _))
        · simp only [seqsOf_append, tssOf_append, h1, h2, List.singleton_append,
            List.length_cons]
          rw [apList, Nat.mod_eq_of_lt ht]
          exact congrArg (List.cons st.timestamp)
            (i2.trans (apList_congr 960 4294967296 ((st.timestamp + 960) % 4294967296)
              (st.timestamp + 960) (by omega) _))
        · intro st3 h3
          simp only at h3
          obtain ⟨j1, j2⟩ := i3 st3 h3
          rw [h4] at j1
          rw [h5] at j2
          simp only [seqsOf_append, h1, List.singleton_append, List.length_cons]
          constructor
          · rw [j1]
            omega
          · rw [j2]
            omega

/-- C3: over any run of the transport loop from the post-handshake state,
the sequence values of the transmitted media packets form an arithmetic
progression modulo 2^16 with step 1 and the timestamp values an
arithmetic progression modulo 2^32 with step 960; each transmitted packet
advances sequence by exactly 1 and timestamp by exactly 960 (wrapping),
and iterations that transmit nothing advance neither — the final counters
equal the number of transmitted packets (times the step) mod the width. -/
theorem C3_counters_arithmetic (ssrc : Nat) (ticks : List Tick) :
    seqsOf (runLoop ssrc initState ticks).1
      = apList 0 1 65536 (seqsOf (runLoop ssrc initState ticks).1).length
    ∧ tssOf (runLoop ssrc initState ticks).1
      = apList 0 960 4294967296 (seqsOf (runLoop ssrc initState ticks).1).length
    ∧ ∀ st2, (runLoop ssrc initState ticks).2 = .ranOut st2 →
        st2.sequence = (seqsOf (runLoop ssrc initState ticks).1).length % 65536
        ∧ st2.timestamp
            = (960 * (seqsOf (runLoop ssrc initState ticks).1).length) % 4294967296 := by
  have h := runLoop_seqs ssrc ticks initState (by norm_num [initState]) (by norm_num [initState])
  simpa [initState] using h

/-- Witness for C3 on a concrete one-packet run. -/
theorem C3_counters_arithmetic_witness :
    (runLoop 7 initState [wTickPlay]).2
        = .ranOut ⟨1, 960, true, some ⟨[], .eof⟩,
            buildHeader 0 0 7 ++ List.replicate 12 0⟩
    ∧ (⟨1, 960, true, some ⟨[], .eof⟩,
          buildHeader 0 0 7 ++ List.replicate 12 0⟩ : LoopState).sequence
        = (seqsOf (runLoop 7 initState [wTickPlay]).1).length % 65536 := by
  refine ⟨by decide, ?_⟩
  exact ((C3_counters_arithmetic 7 [wTickPlay]).2.2 _ (by decide)).1

/-! ### Speaking-state messages (claim C4) -/

theorem lastVal_append (i : Bool) (l1 l2 : List Bool) :
    lastVal i (l1 ++ l2) = lastVal (lastVal i l1) l2 := by
  induction l1 generalizing i with
  | nil => simp [lastVal]
  | cons b r ih => simp [lastVal, ih]

theorem changes_append (i : Bool) (l1 l2 : List Bool) :
    changes i (l1 ++ l2) = changes i l1 ++ changes (lastVal i l1) l2 := by
  induction l1 generalizing i with
  | nil => simp [changes, lastVal]
  | cons b r ih =>
    by_cases hb : b = i
    · subst hb
      simp [changes, lastVal, ih]
    · simp [changes, lastVal, hb, ih]

/-- From any reachable loop state, if every websocket speaking send
succeeds, the speaking messages actually sent are exactly the
state-changing announcements, and the stored flag tracks the last
announced value. -/
theorem runLoop_speak (ssrc : Nat) (ticks : List Tick) (st : LoopState)
    (hok : ∀ t ∈ ticks, t.speakSendOk = true) :
    speakMsgsOf (runLoop ssrc st ticks).1
      = changes st.speaking (speakCallsOf (runLoop ssrc st ticks).1)
    ∧ ∀ st2, (runLoop ssrc st ticks).2 = .ranOut st2 →
        st2.speaking = lastVal st.speaking (speakCallsOf (runLoop ssrc st ticks).1) := by
  induction ticks generalizing st with
  | nil =>
    rw [runLoop_nil]
    refine ⟨by simp [speakMsgsOf, speakCallsOf, changes], ?_⟩
    intro st2 h2
    cases h2
    simp [speakCallsOf, lastVal]
  | cons t ts ih =>
    have hokt : t.speakSendOk = true := hok t (List.mem_cons_self t ts)
    have hokr : ∀ u ∈ ts, u.speakSendOk = true :=
      fun u hu => hok u (List.mem_cons_of_mem t hu)
    cases hstep : stepTick ssrc st t with
    | halt es0 e0 =>
      rw [runLoop_cons_halt ssrc st t ts es0 e0 hstep]
      obtain ⟨_, _, _, hne, hmsg⟩ := (stepTick_spec ssrc st t).2 es0 e0 hstep
      refine ⟨hmsg hokt, ?_⟩
      intro st2 habs
      exact absurd habs (hne st2)
    | cont es0 st2 =>
      rw [runLoop_cons_cont ssrc st st2 t ts es0 hstep]
      obtain ⟨_, hspk⟩ := (stepTick_spec ssrc st t).1 es0 st2 hstep
      obtain ⟨hm, hl2⟩ := hspk hokt
      obtain ⟨i1, i2⟩ := ih st2 hokr
      refine ⟨?_, ?_⟩
      · simp only [speakMsgsOf_append, speakCallsOf_append, changes_append]
        rw [hm, i1, hl2]
      · intro st3 h3
        simp only at h3
        have j := i2 st3 h3
        simp only [speakCallsOf_append, lastVal_append]
        rw [j, hl2]

/-- C4: within one session (all speaking websocket sends succeeding), a
speaking control message is emitted exactly on each transition of the
announced state (silence to audio and audio to silence): the sent
messages equal the change points of the per-frame-cycle announcements,
starting from not-speaking, so no message is ever emitted when the
announced state already matches, and the number of messages equals the
number of transitions. -/
theorem C4_speaking_transitions (ssrc : Nat) (ticks : List Tick)
    (hok : ∀ t ∈ ticks, t.speakSendOk = true) :
    speakMsgsOf (runLoop ssrc initState ticks).1
      = changes false (speakCallsOf (runLoop ssrc initState ticks).1)
    ∧ (speakMsgsOf (runLoop ssrc initState ticks).1).length
      = (changes false (speakCallsOf (runLoop ssrc initState ticks).1)).length := by
  have h : speakMsgsOf (runLoop ssrc initState ticks).1
      = changes false (speakCallsOf (runLoop ssrc initState ticks).1) :=
    (runLoop_speak ssrc ticks initState hok).1
  exact ⟨h, by rw [h]⟩

/-- Witness for C4 on a concrete run with one silence-audio-silence cycle. -/
theorem C4_speaking_transitions_witness :
    speakMsgsOf (runLoop 7 initState [wTickPlay, wTickSilent]).1
      = changes false (speakCallsOf (runLoop 7 initState [wTickPlay, wTickSilent]).1)
    ∧ (speakMsgsOf (runLoop 7 initState [wTickPlay, wTickSilent]).1).length
      = (changes false
          (speakCallsOf (runLoop 7 initState [wTickPlay, wTickSilent]).1)).length :=
  C4_speaking_transitions 7 [wTickPlay, wTickSilent] (by decide)

/-! ### Nonce structure (claim C5) -/

/-- From any loop state whose nonce tail is still the 12 zero bytes it
was initialised with, every packet sent carries a nonce equal to its
12-byte header followed by 12 zero bytes, and the invariant is preserved. -/
theorem runLoop_nonces (ssrc : Nat) (ticks : List Tick) (st : LoopState)
    (hn : st.nonce.drop 12 = List.replicate 12 0) :
    (∀ pr ∈ noncesOf (runLoop ssrc st ticks).1,
        pr.2 = pr.1 ++ List.replicate 12 0 ∧ pr.1.length = 12)
    ∧ ∀ st2, (runLoop ssrc st ticks).2 = .ranOut st2 →
        st2.nonce.drop 12 = List.replicate 12 0 := by
  induction ticks generalizing st with
  | nil =>
    rw [runLoop_nil]
    refine ⟨?_, ?_⟩
    · intro pr hpr
      simp [noncesOf] at hpr
    · intro st2 h2
      cases h2
      exact hn
  | cons t ts ih =>
    cases hstep : stepTick ssrc st t with
    | halt es0 e0 =>
      rw [runLoop_cons_halt ssrc st t ts es0 e0 hstep]
      obtain ⟨_, _, h3, hne, _⟩ := (stepTick_spec ssrc st t).2 es0 e0 hstep
      refine ⟨?_, ?_⟩
      · intro pr hpr
        rw [h3] at hpr
        cases hpr
      · intro st2 habs
        exact absurd habs (hne st2)
    | cont es0 st2 =>
      rw [runLoop_cons_cont ssrc st st2 t ts es0 hstep]
      obtain ⟨hdisj, _⟩ := (stepTick_spec ssrc st t).1 es0 st2 hstep
      rcases hdisj with ⟨_, _, h3, _, _, h6⟩ | ⟨_, _, h3, _, _, h6⟩
      · have hn2 : st2.nonce.drop 12 = List.replicate 12 0 := by rw [h6]; exact hn
        obtain ⟨i1, i2⟩ := ih st2 hn2
        refine ⟨?_, ?_⟩
        · intro pr hpr
          rw [noncesOf_append, h3, List.nil_append] at hpr
          exact i1 pr hpr
        · intro st3 h4
          exact i2 st3 h4
      · have hn2 : st2.nonce.drop 12 = List.replicate 12 0 := by
          rw [h6, hn]
          exact List.drop_left' (buildHeader_length st.sequence st.timestamp ssrc)
        obtain ⟨i1, i2⟩ := ih st2 hn2
        refine ⟨?_, ?_⟩
        · intro pr hpr
          rw [noncesOf_append, h3, hn] at hpr
          rcases List.mem_append.mp hpr with hin | hin
          · rcases List.mem_singleton.mp hin with rfl
            exact ⟨rfl, buildHeader_length st.sequence st.timestamp ssrc⟩
          · exact i1 pr hin
        · intro st3 h4
          exact i2 st3 h4

/-- C5: for every media packet transmitted in a session, the 24-byte
nonce used to seal its Opus payload has its first 12 bytes equal to the
packet's 12-byte header and its last 12 bytes equal to zero — for every
packet of the session, not only the first. -/
theorem C5_nonce_structure (ssrc : Nat) (ticks : List Tick)
    (pr : List Nat × List Nat)
    (hmem : pr ∈ noncesOf (runLoop ssrc initState ticks).1) :
    pr.2.take 12 = pr.1 ∧ pr.2.drop 12 = List.replicate 12 0
    ∧ pr.1.length = 12 ∧ pr.2.length = 24 := by
  obtain ⟨h1, h2⟩ := (runLoop_nonces ssrc ticks initState (by decide)).1 pr hmem
  refine ⟨?_, ?_, h2, ?_⟩
  · rw [h1]
    exact List.take_left' h2
  · rw [h1]
    exact List.drop_left' h2
  · rw [h1, List.length_append, h2]
    simp

/-- Witness for C5 on the packet of a concrete one-packet run. -/
theorem C5_nonce_structure_witness :
    (buildHeader 0 0 7 ++ List.replicate 12 0).take 12 = buildHeader 0 0 7
    ∧ (buildHeader 0 0 7 ++ List.replicate 12 0).drop 12 = List.replicate 12 0
    ∧ (buildHeader 0 0 7).length = 12
    ∧ (buildHeader 0 0 7 ++ List.replicate 12 0).length = 24 :=
  C5_nonce_structure 7 [wTickPlay]
    (buildHeader 0 0 7, buildHeader 0 0 7 ++ List.replicate 12 0) (by decide)

/-! ### Encoder errors (claim C8) -/

/-- C8 counterexample: with audio present and the Opus encoder failing,
the loop's run ends in panicAbort (the expect at voice.rs line 374), not
in an error surfaced as the loop's result — the claim that the loop
terminates with a typed Encode error as its result, like every other
error kind, is false. -/
theorem C8_encode_error_counterexample :
    runLoop 7 initState [wTickEncErr]
      = ([.speakCall true, .speakingMsg true], .panicAbort) := by
  decide

/-- C8 amended: whenever the Opus encoder returns an error during a frame
cycle that reached encoding (audio was read and the speaking announcement
succeeded), the frame cycle terminates the transport loop by a panic
through expect — fatal for the session, but not surfaced as the loop's
typed error result. -/
theorem C8_encode_error_panics (ssrc : Nat) (st : LoopState) (t : Tick)
    (len : Nat) (audio2 : Option ByteSource)
    (hr : readFrame st.audio = .ok (len, audio2)) (hl : len ≠ 0)
    (hok : t.speakSendOk = true) (henc : t.encodeRes = none) :
    ∃ es, frameCycle ssrc st t = .halt es .panicAbort := by
  cases hsp : st.speaking with
  | true =>
    refine ⟨[.speakCall true], ?_⟩
    refine frameCycle_encodePanic ssrc st t len audio2 [.speakCall true] true hr hl ?_ henc
    rw [hsp]
    exact set_speaking_same true t.speakSendOk
  | false =>
    refine ⟨[.speakCall true, .speakingMsg true], ?_⟩
    refine frameCycle_encodePanic ssrc st t len audio2
      [.speakCall true, .speakingMsg true] true hr hl ?_ henc
    rw [hsp, hok]
    exact set_speaking_diff_ok false true (by decide)

/-- Witness for the amended C8 at a concrete state and tick. -/
theorem C8_encode_error_panics_witness :
    ∃ es, frameCycle 7 wStPlay wTickEncErr = .halt es .panicAbort :=
  C8_encode_error_panics 7 wStPlay wTickEncErr 1 (some ⟨[], .eof⟩)
    rfl (by decide) rfl rfl

/-! ### Buffered play commands (claim C1) -/

theorem drainAudio_append (l1 l2 : List Status) (a : Option ByteSource) :
    drainAudio (l1 ++ l2) a = drainAudio l2 (drainAudio l1 a) := by
  induction l1 generalizing a with
  | nil => simp [drainAudio]
  | cons c r ih =>
    cases c with
    | source s => simp [drainAudio, ih]
    | stop => simp [drainAudio, ih]
    | poke => simp [drainAudio, ih]

/-- C1 counterexample: play while idle is not discarded — the command is
buffered in the channel whose receiver the controller holds, the next
activation hands that receiver (with the buffered SetSource) to the
spawned transport loop, and the loop's first drain observes it and
installs the source. -/
theorem C1_play_while_idle_counterexample :
    update (play { VC.new 1 with sessionId := some "abc" } wSrc)
        (.voiceServerUpdate 9 (some "voice.example:80") "tkn") allOkEnv
      = .ok ⟨1, some "abc", [], false, true⟩ (some [Status.source wSrc])
    ∧ drainAudio [Status.source wSrc] none = some wSrc := by
  constructor
  · rfl
  · rfl

/-- C1 amended: play while the session is idle (the controller holding the
receiver, so the channel is alive) enqueues SetSource into the buffered
queue; the next activation hands exactly that queue to the spawned
transport loop, whose drain then installs the source (the last queued
SetSource wins).  A play is silently discarded only when the channel is
disconnected, i.e. the receiving end has been dropped. -/
theorem C1_play_while_idle_buffered (vc : VC) (s : ByteSource)
    (srv : Nat) (ep tok sid : String) (a : Option ByteSource)
    (halive : vc.channelAlive = true) (hheld : vc.receiverHeld = true)
    (hsess : vc.sessionId = some sid) :
    (play vc s).queue = vc.queue ++ [Status.source s]
    ∧ update (play vc s) (.voiceServerUpdate srv (some ep) tok) allOkEnv
        = .ok { vc with queue := [], receiverHeld := false, channelAlive := true }
            (some (vc.queue ++ [Status.source s]))
    ∧ drainAudio (vc.queue ++ [Status.source s]) a = some s
    ∧ ∀ w : VC, w.channelAlive = false → play w s = w := by
  have hq : (play vc s).queue = vc.queue ++ [Status.source s] := by
    simp [play, halive]
  refine ⟨hq, ?_, ?_, ?_⟩
  · have hplay : play vc s = { vc with queue := vc.queue ++ [Status.source s] } := by
      simp [play, halive]
    rw [hplay]
    simp [update, connect, allOkEnv, hheld, hsess]
  · rw [drainAudio_append]
    rfl
  · intro w hw
    simp [play, hw]

/-- Witness for the amended C1 at a concrete idle controller. -/
theorem C1_play_while_idle_buffered_witness :
    (play { VC.new 1 with sessionId := some "abc" } wSrc).queue
        = ({ VC.new 1 with sessionId := some "abc" } : VC).queue ++ [Status.source wSrc]
    ∧ update (play { VC.new 1 with sessionId := some "abc" } wSrc)
        (.voiceServerUpdate 9 (some "h") "t") allOkEnv
        = .ok { { VC.new 1 with sessionId := some "abc" } with
              queue := [], receiverHeld := false, channelAlive := true }
            (some (({ VC.new 1 with sessionId := some "abc" } : VC).queue
              ++ [Status.source wSrc]))
    ∧ drainAudio (({ VC.new 1 with sessionId := some "abc" } : VC).queue
        ++ [Status.source wSrc]) none = some wSrc
    ∧ ∀ w : VC, w.channelAlive = false → play w wSrc = w :=
  C1_play_while_idle_buffered { VC.new 1 with sessionId := some "abc" } wSrc
    9 "h" "t" "abc" none rfl rfl rfl

/-! ### Activation failure behaviour (claim C2) -/

/-- C2 counterexample: an activation whose handshake fails in the inline
connect phase — here the URL parse failure the claim itself lists — does
not return normally: update panics through the expect at voice.rs line
75. -/
theorem C2_connect_failure_panics_counterexample :
    update { VC.new 1 with sessionId := some "abc" }
        (.voiceServerUpdate 9 (some "voice.example:80") "tkn")
        { allOkEnv with urlParseOk := false }
      = .panicked := by
  rfl

/-- C2 amended: when the inline connect phase succeeds, a handshake
failure inside the spawned voice thread leaves update returning
normally, and once that thread dies of the failure the session is idle
again: is_running is false.  Only failures of the inline connect phase
(URL parse, websocket connect, request send, validation, identify send,
spawn) escape as a panic of update instead. -/
theorem C2_thread_failure_returns_to_idle (vc : VC) (srv : Nat)
    (ep tok sid : String) (msgs : List RecvOutcome) (uenv : UdpEnv) (e : VError)
    (hsess : vc.sessionId = some sid)
    (hfail : (voiceHandshake msgs uenv).2 = .fail e) :
    ∃ q, update vc (.voiceServerUpdate srv (some ep) tok) allOkEnv
        = .ok { vc with queue := [], receiverHeld := false, channelAlive := true }
            (some q)
    ∧ is_running (controllerAfterHandshake
        { vc with queue := [], receiverHeld := false, channelAlive := true }
        (voiceHandshake msgs uenv).2) = false := by
  refine ⟨if vc.receiverHeld then vc.queue else [], ?_, ?_⟩
  · simp [update, connect, allOkEnv, hsess]
  · rw [hfail]
    simp [controllerAfterHandshake, afterThreadExit, is_running]

/-- Witness for the amended C2: a concrete activation whose spawned
thread receives Ready first and so fails the handshake. -/
theorem C2_thread_failure_returns_to_idle_witness :
    ∃ q, update { VC.new 1 with sessionId := some "abc" }
        (.voiceServerUpdate 9 (some "h") "t") allOkEnv
        = .ok { { VC.new 1 with sessionId := some "abc" } with
              queue := [], receiverHeld := false, channelAlive := true }
            (some q)
    ∧ is_running (controllerAfterHandshake
        { { VC.new 1 with sessionId := some "abc" } with
            queue := [], receiverHeld := false, channelAlive := true }
        (voiceHandshake [RecvOutcome.ok (.ready "xsalsa20_poly1305" [])]
          ⟨true, true, true, true, true, [], true⟩).2) = false :=
  C2_thread_failure_returns_to_idle { VC.new 1 with sessionId := some "abc" }
    9 "h" "t" "abc" [RecvOutcome.ok (.ready "xsalsa20_poly1305" [])]
    ⟨true, true, true, true, true, [], true⟩
    (.protocol "First voice event was not Handshake") rfl (by decide)

end DiscordVoice
